import Mathlib

/-!
Verification of the market-data service: a shallow embedding of the
WebSocket connection pool (src/websocket_pool/) and the five-stage
normalization pipeline (src/shared_data/) together with theorems about
the properties stated in the specification.

Conventions of the embedding:
* Python JSON-like values are modelled by `Value`; the Python `None`
  object is the constructor `Value.vnull`.
* `dict.get(k)` returning `None` (key absent or key bound to `None`) is
  modelled by `pget`, which yields `Value.vnull` in both cases, exactly
  matching the places where the source only tests `is None` afterwards.
* `dict.get(k, d)` is modelled by `pgetD`: the default applies only when
  the key is absent, as in Python.
* Wall-clock reads (datetime.now()) and logging do not influence any of
  the verified properties and are not modelled.
-/

/-- A Python value as it occurs in the market-data dictionaries handled by
the pipeline: strings, integers, lists, string-keyed dicts and `None`.
(The wire payloads of the analysed scenarios contain no floats.) -/
inductive Value : Type where
  | vstr (s : String)
  | vint (n : Int)
  | vlist (xs : List Value)
  | vdict (xs : List (String × Value))
  | vnull

/-- Python truthiness of a `Value` (`if v:`). -/
def Value.truthy : Value → Bool
  | .vstr s => s ≠ ""
  | .vint n => n ≠ 0
  | .vlist xs => !xs.isEmpty
  | .vdict xs => !xs.isEmpty
  | .vnull => false

/-- `v is None` in Python. -/
def Value.isNull : Value → Bool
  | .vnull => true
  | _ => false

/-- First binding of key `k` in an association list (Python dict lookup;
the dicts built by the embedded code never bind a key twice). -/
def assocGet (xs : List (String × Value)) (k : String) : Option Value :=
  (xs.find? (fun p => p.1 == k)).map (fun p => p.2)

/-- Python `d.get(k)`: `None` both for an absent key and for a key bound
to `None`.  Used wherever the source only checks `is None` afterwards. -/
def pget (xs : List (String × Value)) (k : String) : Value :=
  (assocGet xs k).getD .vnull

/-- Python `d.get(k, default)`: the default applies only when the key is
absent; a key bound to `None` still yields `None`. -/
def pgetD (xs : List (String × Value)) (k : String) (d : Value) : Value :=
  (assocGet xs k).getD d

/-- Rendering used for f-string interpolation of scalar values
(`f"{exchange}_{data_type}"`).  Containers would render via repr in
Python; no analysed claim builds a container-valued exchange, data type
or symbol, so their rendering is abbreviated. -/
def pyFStr : Value → String
  | .vstr s => s
  | .vint n => toString n
  | .vnull => "None"
  | .vlist _ => "<list>"
  | .vdict _ => "<dict>"

/-- Parse an optionally signed decimal numeral, the fragment of the
builtin `int(str)` exercised by the wire payloads (whitespace and
underscore tolerance of the builtin is not reached by any claim). -/
def parseIntString (s : String) : Option Int :=
  match s.data with
  | [] => none
  | '-' :: rest =>
      if rest ≠ [] ∧ rest.all Char.isDigit then
        some (-(Int.ofNat ((rest.map (fun c => c.toNat - 48)).foldl
          (fun a d => a * 10 + d) 0)))
      else none
  | l =>
      if l.all Char.isDigit then
        some (Int.ofNat ((l.map (fun c => c.toNat - 48)).foldl
          (fun a d => a * 10 + d) 0))
      else none

/-- The builtin `int(value)` as used by `Step2Fusion._to_int`: an `int`
passes through, a numeric string parses, everything else (including
`None`, lists, dicts and malformed strings) raises and is reported as
`none` by the caller. -/
def pyToInt : Value → Option Int
  | .vint n => some n
  | .vstr s => parseIntString s
  | _ => none

/-- Python `v == "lit"` for an optional value against a string literal. -/
def isStrV (v : Option Value) (s : String) : Bool :=
  match v with
  | some (.vstr t) => t == s
  | _ => false

/-- Keys of a Python dict built by repeated insertion, in first-occurrence
order. -/
def uniqueKeys : List String → List String
  | [] => []
  | k :: rest => k :: (uniqueKeys rest).filter (fun x => x ≠ k)

namespace Step1Filter

/-- One step of a `FIELD_MAP` path: a string key or a list index. -/
inductive PathKey : Type where
  | key (s : String)
  | idx (i : Nat)

/-- `Step1Filter._traverse_path`, one step: an `int` key indexes a list
(or yields `None` out of range); any key on a dict is looked up (an int
key is absent from the string-keyed wire dicts, hence `None`); anything
else yields `None` and stops the walk. -/
def traverseStep (v : Value) (k : PathKey) : Value :=
  match k, v with
  | .idx i, .vlist xs => xs.getD i .vnull
  | .idx _, .vdict _ => .vnull
  | .key s, .vdict xs => pget xs s
  | _, _ => .vnull

/-- `Step1Filter._traverse_path`: walk the path, stopping at the first
`None`. -/
def traverse_path (v : Value) : List PathKey → Value
  | [] => v
  | k :: rest =>
      let r := traverseStep v k
      if r.isNull then .vnull else traverse_path r rest

/-- `Step1Filter.FIELD_MAP`: the static per-type descriptor
`(path, fields)`, where `fields` maps output names to wire names, in the
literal order of the source. -/
def FIELD_MAP (typeKey : String) : Option (List PathKey × List (String × String)) :=
  if typeKey = "okx_ticker" then
    some ([.key "raw_data", .key "data", .idx 0],
      [("contract_name", "instId"), ("latest_price", "last")])
  else if typeKey = "okx_funding_rate" then
    some ([.key "raw_data", .key "data", .idx 0],
      [("contract_name", "instId"), ("funding_rate", "fundingRate"),
       ("current_settlement_time", "fundingTime"),
       ("next_settlement_time", "nextFundingTime")])
  else if typeKey = "binance_ticker" then
    some ([.key "raw_data"],
      [("contract_name", "s"), ("latest_price", "c")])
  else if typeKey = "binance_mark_price" then
    some ([.key "raw_data"],
      [("contract_name", "s"), ("funding_rate", "r"),
       ("current_settlement_time", "T")])
  else if typeKey = "binance_funding_settlement" then
    some ([],
      [("contract_name", "symbol"), ("funding_rate", "funding_rate"),
       ("last_settlement_time", "funding_time")])
  else none

/-- The record produced by S1 for one raw event
(`Step1Filter.ExtractedData`).  `symbol` holds the string the source
binds (the raw `symbol` field or the canonicalized okx instrument). -/
structure ExtractedData : Type where
  data_type : String
  exchange : Option Value
  symbol : String
  payload : List (String × Value)

/-- The okx canonicalization performed by `Step1Filter._extract_item`:
`inst_id.replace("-SWAP", "").replace("-", "")` — every occurrence of
the substring `-SWAP` is removed, then every dash. -/
def replaceAux (pat rep : List Char) : Nat → List Char → List Char
  | 0, s => s
  | _ + 1, [] => []
  | fuel + 1, c :: cs =>
      if pat.isPrefixOf (c :: cs) then
        rep ++ replaceAux pat rep fuel ((c :: cs).drop pat.length)
      else
        c :: replaceAux pat rep fuel cs

/-- Python `s.replace(pat, rep)` for a non-empty pattern: replace all
non-overlapping occurrences left to right.  (The fuel is the string
length; each step consumes at least one character.) -/
def pyReplace (s pat rep : String) : String :=
  ⟨replaceAux pat.data rep.data s.data.length s.data⟩

/-- `inst_id.replace("-SWAP", "").replace("-", "")` from
`Step1Filter._extract_item`. -/
def okxNormalize (instId : String) : String :=
  pyReplace (pyReplace instId "-SWAP" "") "-" ""

/-- The okx symbol override of `Step1Filter._extract_item`: with
`inst_id = payload.get("contract_name", "")`, a truthy string replaces
the raw symbol by its normalization; a falsy value keeps the raw symbol;
a truthy non-string would raise (event dropped), reported as `none`. -/
def okxSymbolOf (rawSym : String) (contract : Value) : Option String :=
  match contract with
  | .vstr i => some (if i ≠ "" then okxNormalize i else rawSym)
  | v => if v.truthy then none else some rawSym

/-- The tail of `Step1Filter._extract_item`: attach the symbol (okx
canonicalization, binance fallback) and build the record. -/
def finishItem (type_key : String) (exchange : Option Value)
    (item : List (String × Value)) (payload : List (String × Value)) :
    Option ExtractedData :=
  let rawSymV := pgetD item "symbol" (.vstr "")
  if isStrV exchange "okx" then
    match okxSymbolOf (pyFStr rawSymV) (pgetD payload "contract_name" (.vstr "")) with
    | none => none
    | some sym => some ⟨type_key, exchange, sym, payload⟩
  else
    let sym :=
      if isStrV exchange "binance" && !rawSymV.truthy then
        pyFStr (pgetD payload "contract_name" (.vstr ""))
      else pyFStr rawSymV
    some ⟨type_key, exchange, sym, payload⟩

/-- `Step1Filter._extract_item` on one raw dict. -/
def extract_item (raw : Value) : Option ExtractedData :=
  match raw with
  | .vdict item =>
      let exchange := assocGet item "exchange"
      let data_type := assocGet item "data_type"
      let type_key :=
        if isStrV data_type "funding_settlement" then
          "binance_funding_settlement"
        else
          pyFStr (exchange.getD .vnull) ++ "_" ++ pyFStr (data_type.getD .vnull)
      match FIELD_MAP type_key with
      | none => none
      | some (path, fields) =>
          let data_source :=
            if type_key = "binance_funding_settlement" then Value.vdict item
            else traverse_path (.vdict item) path
          if data_source.isNull then none
          else
            let payload := fields.map (fun pr =>
              (pr.1, match data_source with
                     | .vdict src => pget src pr.2
                     | _ => .vnull))
            finishItem type_key exchange item payload
  | _ => none

/-- `Step1Filter.process`: extract each raw item, dropping failures
(exceptions are caught and logged per item). -/
def process (raws : List Value) : List ExtractedData :=
  raws.filterMap extract_item

end Step1Filter

namespace Step2Fusion

open Step1Filter (ExtractedData)

/-- `Step2Fusion.FusedData`; optional string-or-value fields keep the
Python object (`vnull` for the dataclass default `None`), timestamps are
the `Optional[int]` results of `_to_int`. -/
structure FusedData : Type where
  exchange : Option Value
  symbol : String
  contract_name : Value
  latest_price : Value := .vnull
  funding_rate : Value := .vnull
  last_settlement_time : Option Int := none
  current_settlement_time : Option Int := none
  next_settlement_time : Option Int := none

/-- `Step2Fusion._to_int`: `None` stays `None`, otherwise `int(value)`
with conversion failures reported as `None`. -/
def to_int (v : Value) : Option Int :=
  if v.isNull then none else pyToInt v

/-- `Step2Fusion._merge_okx`: fold the group, taking the first truthy
contract name, the latest ticker price and the latest funding-rate
fields; reject the group unless price or rate is truthy. -/
def merge_okx (items : List ExtractedData) (fused : FusedData) : Option FusedData :=
  let f := items.foldl (fun acc it =>
    let acc :=
      if !acc.contract_name.truthy && (assocGet it.payload "contract_name").isSome then
        { acc with contract_name := pget it.payload "contract_name" }
      else acc
    if it.data_type = "okx_ticker" then
      { acc with latest_price := pget it.payload "latest_price" }
    else if it.data_type = "okx_funding_rate" then
      { acc with
          funding_rate := pget it.payload "funding_rate",
          current_settlement_time := to_int (pget it.payload "current_settlement_time"),
          next_settlement_time := to_int (pget it.payload "next_settlement_time") }
    else acc) fused
  if !f.latest_price.truthy && !f.funding_rate.truthy then none else some f

/-- `Step2Fusion._merge_binance`: a mark-price event is mandatory and is
the source of the funding rate; a ticker contributes the price and a
funding-settlement event the previous settlement time. -/
def merge_binance (items : List ExtractedData) (fused : FusedData) : Option FusedData :=
  match items.find? (fun it => it.data_type == "binance_mark_price") with
  | none => none
  | some mk =>
      let f := { fused with
        contract_name := pgetD mk.payload "contract_name" (.vstr fused.symbol),
        funding_rate := pget mk.payload "funding_rate",
        current_settlement_time := to_int (pget mk.payload "current_settlement_time") }
      if f.funding_rate.isNull then none
      else
        let f :=
          match items.find? (fun it => it.data_type == "binance_ticker") with
          | some tk => { f with latest_price := pget tk.payload "latest_price" }
          | none => f
        let f :=
          match items.find? (fun it => it.data_type == "binance_funding_settlement") with
          | some st => { f with last_settlement_time := to_int (pget st.payload "last_settlement_time") }
          | none => f
        some f

/-- `Step2Fusion._merge_group`: initialize from the first item and
dispatch on its exchange. -/
def merge_group (items : List ExtractedData) : Option FusedData :=
  match items with
  | [] => none
  | first :: _ =>
      let fused : FusedData :=
        { exchange := first.exchange, symbol := first.symbol, contract_name := .vstr "" }
      if isStrV first.exchange "okx" then merge_okx items fused
      else if isStrV first.exchange "binance" then merge_binance items fused
      else none

/-- The grouping key `f"{item.exchange}_{item.symbol}"`. -/
def groupKey (it : ExtractedData) : String :=
  pyFStr (it.exchange.getD .vnull) ++ "_" ++ it.symbol

/-- `Step2Fusion.process`: group by `exchange_symbol` in first-occurrence
order (Python dict insertion order) and merge each group, dropping empty
merges. -/
def process (step1Results : List ExtractedData) : List FusedData :=
  (uniqueKeys (step1Results.map groupKey)).filterMap (fun k =>
    merge_group (step1Results.filter (fun it => groupKey it = k)))

end Step2Fusion

namespace Step3Align

open Step2Fusion (FusedData)

/-- `Step3Align.AlignedData`: both venues of one canonical symbol, with
formatted UTC+8 strings and raw millisecond timestamps. -/
structure AlignedData : Type where
  symbol : String
  okx_contract_name : Value := .vnull
  binance_contract_name : Value := .vnull
  okx_price : Value := .vnull
  okx_funding_rate : Value := .vnull
  okx_last_settlement : Option String := none
  okx_current_settlement : Option String := none
  okx_next_settlement : Option String := none
  binance_price : Value := .vnull
  binance_funding_rate : Value := .vnull
  binance_last_settlement : Option String := none
  binance_current_settlement : Option String := none
  binance_next_settlement : Option String := none
  okx_current_ts : Option Int := none
  okx_next_ts : Option Int := none
  binance_current_ts : Option Int := none
  binance_last_ts : Option Int := none

/-- Year of era from day of era, from the proleptic Gregorian civil
calendar computation that `datetime.utcfromtimestamp` performs
(Hinnant day-to-civil algorithm, non-negative day numbers). -/
def yoeOfDoe (doe : Nat) : Nat :=
  (doe - doe / 1460 + doe / 36524 - doe / 146096) / 365

/-- First day (within the era, March-based) of year-of-era `yoe`. -/
def startOfYoe (yoe : Nat) : Nat :=
  365 * yoe + yoe / 4 - yoe / 100

/-- Shifted month (March = 0) from day of year. -/
def mpOfDoy (doy : Nat) : Nat := (5 * doy + 2) / 153

/-- First day of year for shifted month `mp`. -/
def doyOfMp (mp : Nat) : Nat := (153 * mp + 2) / 5

/-- Gregorian `(year, month, day)` of `z` days after 1970-01-01; the
civil-from-days computation behind `datetime.utcfromtimestamp`. -/
def civilFromDays (z : Nat) : Nat × Nat × Nat :=
  let zd := z + 719468
  let era := zd / 146097
  let doe := zd % 146097
  let yoe := yoeOfDoe doe
  let y := yoe + era * 400
  let doy := doe - startOfYoe yoe
  let mp := mpOfDoy doy
  let d := doy - doyOfMp mp + 1
  let m := if mp < 10 then mp + 3 else mp - 9
  (if m ≤ 2 then y + 1 else y, m, d)

/-- Days after 1970-01-01 of a Gregorian civil date (the inverse
computation, used to give meaning to parsing a formatted string). -/
def daysFromCivil (y m d : Nat) : Nat :=
  let yAdj := if m ≤ 2 then y - 1 else y
  let era := yAdj / 400
  let yoe := yAdj - era * 400
  let doy := doyOfMp (if 2 < m then m - 3 else m + 9) + d - 1
  let doe := startOfYoe yoe + doy
  era * 146097 + doe - 719468

/-- Decimal digit character. -/
def digitChar (n : Nat) : Char :=
  if n = 0 then '0' else if n = 1 then '1' else if n = 2 then '2'
  else if n = 3 then '3' else if n = 4 then '4' else if n = 5 then '5'
  else if n = 6 then '6' else if n = 7 then '7' else if n = 8 then '8'
  else if n = 9 then '9' else '*'

/-- Two zero-padded decimal digits (strftime `%m`, `%d`, `%H`, `%M`,
`%S` for the in-range values produced here). -/
def render2 (n : Nat) : List Char :=
  [digitChar (n / 10 % 10), digitChar (n % 10)]

/-- Four decimal digits (strftime `%Y` for years 1970..9999). -/
def render4 (n : Nat) : List Char :=
  [digitChar (n / 1000 % 10), digitChar (n / 100 % 10),
   digitChar (n / 10 % 10), digitChar (n % 10)]

/-- `dt.strftime("%Y-%m-%d %H:%M:%S")`. -/
def renderCivil (y m d h mi s : Nat) : String :=
  ⟨render4 y ++ '-' :: render2 m ++ '-' :: render2 d ++ ' ' :: render2 h
    ++ ':' :: render2 mi ++ ':' :: render2 s⟩

/-- `Step3Align._ts_to_str`: `None` or non-positive timestamps yield
`None`; otherwise `datetime.utcfromtimestamp(ts / 1000)` truncates to
whole seconds (strftime ignores the sub-second part), eight hours are
added, and the result is formatted.  Out-of-range timestamps (year
10000 and beyond, before or after the shift) raise inside the `try`
and are reported as `None`. -/
def ts_to_str (ts : Option Int) : Option String :=
  match ts with
  | none => none
  | some t =>
      if t ≤ 0 then none
      else
        let secs := t.toNat / 1000
        if secs + 28800 < 253402300800 then
          let bj := secs + 28800
          let days := bj / 86400
          let sod := bj % 86400
          let c := civilFromDays days
          some (renderCivil c.1 c.2.1 c.2.2 (sod / 3600) (sod % 3600 / 60) (sod % 60))
        else none

/-- `Step3Align._align_item`: build the aligned record for one symbol
from its okx and binance fused records (always produces a record). -/
def align_item (symbol : String) (okxItem binanceItem : FusedData) : AlignedData :=
  { symbol := symbol
    okx_contract_name := okxItem.contract_name
    okx_price := okxItem.latest_price
    okx_funding_rate := okxItem.funding_rate
    okx_current_ts := okxItem.current_settlement_time
    okx_next_ts := okxItem.next_settlement_time
    okx_current_settlement := ts_to_str okxItem.current_settlement_time
    okx_next_settlement := ts_to_str okxItem.next_settlement_time
    okx_last_settlement := none
    binance_contract_name := binanceItem.contract_name
    binance_price := binanceItem.latest_price
    binance_funding_rate := binanceItem.funding_rate
    binance_last_ts := binanceItem.last_settlement_time
    binance_current_ts := binanceItem.current_settlement_time
    binance_last_settlement := ts_to_str binanceItem.last_settlement_time
    binance_current_settlement := ts_to_str binanceItem.current_settlement_time
    binance_next_settlement := none }

/-- The last okx record of a symbol in the current batch (later dict
assignments overwrite earlier ones). -/
def lastOkx (fused : List FusedData) (sym : String) : Option FusedData :=
  (fused.filter (fun f => f.symbol == sym && isStrV f.exchange "okx")).getLast?

/-- The last binance record of a symbol in the current batch. -/
def lastBinance (fused : List FusedData) (sym : String) : Option FusedData :=
  (fused.filter (fun f => f.symbol == sym && isStrV f.exchange "binance")).getLast?

/-- `Step3Align.process`: group the fused records by symbol in insertion
order and emit an aligned record exactly for the symbols present on both
venues. -/
def process (fused : List FusedData) : List AlignedData :=
  (uniqueKeys (fused.map (fun f => f.symbol))).filterMap (fun sym =>
    match lastOkx fused sym, lastBinance fused sym with
    | some o, some b => some (align_item sym o b)
    | _, _ => none)

end Step3Align

namespace Step4Calc

open Step3Align (AlignedData)

/-- Modelled from the spec: `Step4Calc.process`
(src/shared_data/step4_calc.py is not part of the repository snapshot;
only its import and call sites are).  Spec section 4.5: "S4 — Per-venue
compute: enriches each aligned record using a per-venue cache; writes
through to the cache keyed by canonical symbol."  The record carries the
aligned fields; the derived per-venue fields are given no formula by the
spec and none of the analysed claims depends on them. -/
structure S4Record : Type where
  base : AlignedData

/-- Modelled from the spec: one enriched output per aligned input. -/
def process (xs : List AlignedData) : List S4Record :=
  xs.map (fun x => ⟨x⟩)

end Step4Calc

namespace Step5CrossCalc

open Step4Calc (S4Record)

/-- Modelled from the spec: `Step5CrossCalc.process` output
(src/shared_data/step5_cross_calc.py is not part of the repository
snapshot).  Spec section 4.5: "S5 — Cross-venue compute: computes
differentials and emits the final record to the downstream callback";
the final record carries all upstream fields, from which the spreads
are derived. -/
structure FinalRecord : Type where
  base : S4Record

/-- Modelled from the spec: one final record per S4 record. -/
def process (xs : List S4Record) : List FinalRecord :=
  xs.map (fun x => ⟨x⟩)

end Step5CrossCalc

namespace PipelineManager

open Step5CrossCalc (FinalRecord)

/-- `PipelineManager._process_market_data`: run the five stages on the
single event of this invocation; a stage returning an empty result
aborts the rest; the final records are pushed to the brain callback
(returned here as the list of emitted records). -/
def process_market_data (d : Value) : List FinalRecord :=
  let s1 := Step1Filter.process [d]
  if s1.isEmpty then [] else
  let s2 := Step2Fusion.process s1
  if s2.isEmpty then [] else
  let s3 := Step3Align.process s2
  if s3.isEmpty then [] else
  let s4 := Step4Calc.process s3
  if s4.isEmpty then [] else
  let s5 := Step5CrossCalc.process s4
  s5

/-- A sequence of `ingest_data` market invocations (the processing lock
serializes them; each invocation carries a single event); the result is
everything S5 emitted over the sequence. -/
def ingestSeq (ds : List Value) : List FinalRecord :=
  (ds.map process_market_data).flatten

end PipelineManager

/-- Scenario 2, event 1: the venue-A ticker for BTCUSDT. -/
def scenarioOkxTicker : Value :=
  .vdict [("exchange", .vstr "okx"), ("symbol", .vstr "BTCUSDT"),
    ("data_type", .vstr "ticker"),
    ("raw_data", .vdict [
      ("arg", .vdict [("channel", .vstr "tickers"), ("instId", .vstr "BTC-USDT-SWAP")]),
      ("data", .vlist [.vdict [("instId", .vstr "BTC-USDT-SWAP"), ("last", .vstr "60000")]])])]

/-- Scenario 2, event 2: the venue-A funding-rate event. -/
def scenarioOkxFunding : Value :=
  .vdict [("exchange", .vstr "okx"), ("symbol", .vstr "BTCUSDT"),
    ("data_type", .vstr "funding_rate"),
    ("raw_data", .vdict [
      ("arg", .vdict [("channel", .vstr "funding-rate"), ("instId", .vstr "BTC-USDT-SWAP")]),
      ("data", .vlist [.vdict [("instId", .vstr "BTC-USDT-SWAP"),
        ("fundingRate", .vstr "0.00012"), ("fundingTime", .vstr "1700000000000"),
        ("nextFundingTime", .vstr "1700028800000")]])])]

/-- Scenario 2, event 3: the venue-B ticker. -/
def scenarioBinanceTicker : Value :=
  .vdict [("exchange", .vstr "binance"), ("symbol", .vstr "BTCUSDT"),
    ("data_type", .vstr "ticker"),
    ("raw_data", .vdict [("s", .vstr "BTCUSDT"), ("c", .vstr "60010")])]

/-- Scenario 2, event 4: the venue-B mark-price event. -/
def scenarioBinanceMark : Value :=
  .vdict [("exchange", .vstr "binance"), ("symbol", .vstr "BTCUSDT"),
    ("data_type", .vstr "mark_price"),
    ("raw_data", .vdict [("s", .vstr "BTCUSDT"), ("r", .vstr "0.00010"),
      ("T", .vint 1700000000000)])]

/-- The both-venues scenario, ingested in order, one event per
invocation. -/
def scenarioEvents : List Value :=
  [scenarioOkxTicker, scenarioOkxFunding, scenarioBinanceTicker, scenarioBinanceMark]

/-- Python list slicing into consecutive chunks (`xs[i:i+p]` for `i` in
`range(0, len(xs), p)`), fuelled by the list length (each step consumes
at least one element for a positive chunk size). -/
def chunksFuel {α : Type} (p : Nat) : Nat → List α → List (List α)
  | 0, _ => []
  | _ + 1, [] => []
  | fuel + 1, x :: rest => (x :: rest).take p :: chunksFuel p fuel ((x :: rest).drop p)

/-- All chunks of `xs` of size `p` (last one possibly shorter). -/
def chunks {α : Type} (p : Nat) (xs : List α) : List (List α) :=
  chunksFuel p xs.length xs

namespace WebSocketConnection

/-- One batched venue-B subscription frame
(`{method, params, id}`). -/
structure BinanceMsg : Type where
  method : String
  params : List String
  id : Nat
deriving DecidableEq

/-- One venue-A subscription entry (`{channel, instId}`). -/
structure OkxArg : Type where
  channel : String
  instId : String
deriving DecidableEq

/-- One batched venue-A frame (`{op, args}`). -/
structure OkxMsg : Type where
  op : String
  args : List OkxArg
deriving DecidableEq

/-- A frame sent on either venue socket. -/
inductive WireMsg : Type where
  | bin (m : BinanceMsg)
  | okx (m : OkxMsg)
deriving DecidableEq

/-- The binance stream names built by `_subscribe_binance` and
`_unsubscribe` alike: `<symbol>@ticker` and `<symbol>@markPrice` per
symbol, in order. -/
def binanceStreams (symbols : List String) : List String :=
  (symbols.map (fun s => [s.toLower ++ "@ticker", s.toLower ++ "@markPrice"])).flatten

/-- `WebSocketConnection._subscribe_binance`: batches of 50 streams with
ids 1, 2, ... -/
def subscribe_binance (symbols : List String) : List BinanceMsg :=
  (chunks 50 (binanceStreams symbols)).enum.map (fun p => ⟨"SUBSCRIBE", p.2, p.1 + 1⟩)

/-- The venue-B part of `WebSocketConnection._unsubscribe`: the same
streams in batches of 50, each with id 1. -/
def unsubscribe_binance (symbols : List String) : List BinanceMsg :=
  (chunks 50 (binanceStreams symbols)).map (fun b => ⟨"UNSUBSCRIBE", b, 1⟩)

/-- The subscription entries built by `_subscribe_okx`: one `tickers`
and one `funding-rate` entry per symbol, in order. -/
def okxAllSubscriptions (symbols : List String) : List OkxArg :=
  (symbols.map (fun s => [⟨"tickers", s⟩, ⟨"funding-rate", s⟩])).flatten

/-- `WebSocketConnection._subscribe_okx`: entries in batches of 50. -/
def subscribe_okx (symbols : List String) : List OkxMsg :=
  (chunks 50 (okxAllSubscriptions symbols)).map (fun b => ⟨"subscribe", b⟩)

/-- The venue-A part of `WebSocketConnection._unsubscribe`: symbols in
batches of 10, one `tickers` entry per symbol (and no other channel). -/
def unsubscribe_okx (symbols : List String) : List OkxMsg :=
  (chunks 10 symbols).map (fun b => ⟨"unsubscribe", b.map (fun s => ⟨"tickers", s⟩)⟩)

/-- `WebSocketConnection._subscribe`: nothing without symbols, venue
dispatch otherwise. -/
def subscribeMsgs (exchange : String) (symbols : List String) : List WireMsg :=
  if symbols.isEmpty then []
  else if exchange = "binance" then (subscribe_binance symbols).map .bin
  else if exchange = "okx" then (subscribe_okx symbols).map .okx
  else []

/-- `WebSocketConnection._unsubscribe`: nothing without symbols, venue
dispatch otherwise. -/
def unsubscribeMsgs (exchange : String) (symbols : List String) : List WireMsg :=
  if symbols.isEmpty then []
  else if exchange = "binance" then (unsubscribe_binance symbols).map .bin
  else if exchange = "okx" then (unsubscribe_okx symbols).map .okx
  else []

/-- The canonicalization performed by `_process_okx_message`:
`symbol.replace("-USDT-SWAP", "USDT")` — only the literal substring
`-USDT-SWAP` is rewritten. -/
def processedOkxSymbol (instId : String) : String :=
  Step1Filter.pyReplace instId "-USDT-SWAP" "USDT"

/-- The mutable state of `WebSocketConnection` relevant to role and
subscription management (timestamps and counters that no analysed
property reads are omitted). -/
structure Conn : Type where
  exchange : String
  connection_id : String
  connection_type : String
  symbols : List String
  connected : Bool := false
  subscribed : Bool := false
  is_active : Bool := false
  reconnect_count : Nat := 0
deriving DecidableEq

/-- `WebSocketConnection.connect`, with the success of the socket open
supplied as an oracle: on success the connection is marked connected
with a reset reconnect count, and a master with symbols immediately
subscribes and becomes active; a warm standby only schedules its delayed
subscribe; on failure the connection stays disconnected. -/
def connect (c : Conn) (ok : Bool) : Conn × List WireMsg :=
  if ok then
    let c1 := { c with connected := true, reconnect_count := 0 }
    if c1.connection_type = "master" ∧ ¬c1.symbols.isEmpty then
      ({ c1 with subscribed := true, is_active := true }, subscribeMsgs c1.exchange c1.symbols)
    else (c1, [])
  else ({ c with connected := false }, [])

/-- `WebSocketConnection.disconnect`. -/
def disconnect (c : Conn) : Conn :=
  { c with connected := false, subscribed := false, is_active := false }

/-- `WebSocketConnection.switch_role` returning
`(return value, new state, frames sent)`.  A warm standby promoted to
master unsubscribes its current slice if subscribed, adopts truthy new
symbols, activates and subscribes; a master demoted to warm standby
unsubscribes, adopts the new symbols or the hard-coded per-venue
heartbeat default when they are falsy, deactivates and subscribes; any
other combination only relabels the role. -/
def switch_role (c : Conn) (new_role : String) (new_symbols : Option (List String)) :
    Bool × Conn × List WireMsg :=
  if new_role = "master" ∧ c.connection_type = "warm_standby" then
    let unsub := c.connected && c.subscribed
    let msgs1 := if unsub then unsubscribeMsgs c.exchange c.symbols else []
    let c1 := if unsub then { c with subscribed := false } else c
    let c2 :=
      match new_symbols with
      | some (s :: rest) => { c1 with symbols := s :: rest }
      | _ => c1
    let c3 := { c2 with is_active := true, connection_type := new_role }
    let doSub := c3.connected && !c3.symbols.isEmpty
    let msgs2 := if doSub then subscribeMsgs c3.exchange c3.symbols else []
    let c4 := if doSub then { c3 with subscribed := true } else c3
    (true, c4, msgs1 ++ msgs2)
  else if new_role = "warm_standby" ∧ c.connection_type = "master" then
    let unsub := c.connected && c.subscribed
    let msgs1 := if unsub then unsubscribeMsgs c.exchange c.symbols else []
    let c1 := if unsub then { c with subscribed := false } else c
    let c2 :=
      match new_symbols with
      | some (s :: rest) => { c1 with symbols := s :: rest }
      | _ =>
          if c1.exchange = "binance" then { c1 with symbols := ["BTCUSDT"] }
          else if c1.exchange = "okx" then { c1 with symbols := ["BTC-USDT-SWAP"] }
          else c1
    let c3 := { c2 with is_active := false, connection_type := new_role }
    let doSub := c3.connected && !c3.symbols.isEmpty
    let msgs2 := if doSub then subscribeMsgs c3.exchange c3.symbols else []
    let c4 := if doSub then { c3 with subscribed := true } else c3
    (true, c4, msgs1 ++ msgs2)
  else
    (true, { c with connection_type := new_role }, [])

end WebSocketConnection

namespace ExchangeWebSocketPool

open WebSocketConnection (Conn)

/-- A placeholder connection for out-of-range list reads; every theorem
below constrains the indices so it is never denoted. -/
def dfltConn : Conn :=
  { exchange := "", connection_id := "", connection_type := "", symbols := [] }

/-- `ExchangeWebSocketPool._get_heartbeat_symbols`. -/
def get_heartbeat_symbols (exchange : String) : List String :=
  if exchange = "binance" then ["BTCUSDT"]
  else if exchange = "okx" then ["BTC-USDT-SWAP"]
  else []

/-- The master and warm-standby lists of one venue pool. -/
structure PoolState : Type where
  master_connections : List Conn
  warm_standby_connections : List Conn
deriving DecidableEq

/-- The initial grouping of `initialize`:
`symbols[i:i+symbols_per_master]` slices. -/
def initialGroups (symbols : List String) (symbols_per_master : Nat) : List (List String) :=
  chunks symbols_per_master symbols

/-- The loop body of `_balance_symbol_groups`: for indices `i` up to the
target count, take a slice of size `avg` (+1 for the first `rem`
indices) provided it fits, advancing the start offset only when a slice
was taken. -/
def balanceAux (syms : List String) (avg rem : Nat) : Nat → Nat → Nat → List (List String)
  | 0, _, _ => []
  | k + 1, i, start =>
      let size := avg + (if i < rem then 1 else 0)
      if start + size ≤ syms.length then
        (syms.drop start).take size :: balanceAux syms avg rem k (i + 1) (start + size)
      else balanceAux syms avg rem k (i + 1) start

/-- `ExchangeWebSocketPool._balance_symbol_groups` (requires a positive
target count, as at its call sites; Python would raise on zero). -/
def balance_symbol_groups (symbols : List String) (target_groups : Nat) : List (List String) :=
  balanceAux symbols (symbols.length / target_groups) (symbols.length % target_groups)
    target_groups 0 0

/-- The symbol partitioning performed by
`ExchangeWebSocketPool.initialize`: chunks of `symbols_per_master`,
rebalanced to `masters_count` groups when there are more chunks than
masters. -/
def initializeGroups (symbols : List String) (symbols_per_master masters_count : Nat) :
    List (List String) :=
  let groups := initialGroups symbols symbols_per_master
  if masters_count < groups.length then balance_symbol_groups symbols masters_count
  else groups

/-- The Python exceptions that the embedded pool code can raise. -/
inductive PyError : Type where
  | attributeError
deriving DecidableEq

/-- Embeds the expression `conn.last_message_seconds_ago` of
`_select_best_standby_from_pool` (exchange_pool.py line 336).
`WebSocketConnection` defines no attribute of that name — it is only a
key of the dict returned by `check_health` (connection.py line 590) —
so evaluating the expression raises `AttributeError`. -/
def last_message_seconds_ago (_ : Conn) : Except PyError Nat :=
  .error .attributeError

/-- The selection key
`(conn.last_message_seconds_ago or 999, conn.reconnect_count,
len(conn.symbols))`; a falsy (absent or zero) first component becomes
999. -/
def standbyKey (c : Conn) : Except PyError (Nat × Nat × Nat) := do
  let v ← last_message_seconds_ago c
  pure (if v = 0 then 999 else v, c.reconnect_count, c.symbols.length)

/-- Strict lexicographic comparison of selection keys (`min` keeps the
earlier element on ties). -/
def keyLt (a b : Nat × Nat × Nat) : Bool :=
  a.1 < b.1 ∨ (a.1 = b.1 ∧ (a.2.1 < b.2.1 ∨ (a.2.1 = b.2.1 ∧ a.2.2 < b.2.2)))

/-- `ExchangeWebSocketPool._select_best_standby_from_pool`: filter the
connected, non-active standbys; `None` when there are none; otherwise
`min` over the candidates, which evaluates the key — and hence raises —
on the first candidate already. -/
def select_best_standby_from_pool (standbys : List Conn) : Except PyError (Option Conn) :=
  let available := standbys.filter (fun c => c.connected && !c.is_active)
  match available with
  | [] => .ok none
  | c0 :: rest => do
      let k0 ← standbyKey c0
      let best ← rest.foldlM (fun acc c => do
        let k ← standbyKey c
        pure (if keyLt k acc.2 then (c, k) else acc)) (c0, k0)
      .ok (some best.1)

/-- `ExchangeWebSocketPool._monitor_execute_failover` as a transition on
the pool lists.  `old_master` is `master_connections[master_index]` at
every call site; the embedding reads it from the list, modelling the
aliasing of the Python object reference.  `switchOk` stands for the
promotion call completing without a socket exception and `reconnectOk`
for `old_master.connect()` succeeding in step 3. -/
def monitor_execute_failover (st : PoolState) (symbol_groups : List (List String))
    (master_index : Nat) (new_master : Conn) (switchOk reconnectOk : Bool) :
    Bool × PoolState :=
  let old_master := st.master_connections.getD master_index dfltConn
  let old1 := { old_master with symbols := [] }
  let st1 := { st with master_connections := st.master_connections.set master_index old1 }
  let master_symbols :=
    if master_index < symbol_groups.length then symbol_groups.getD master_index [] else []
  if !switchOk then (false, st1)
  else
    let new1 := (WebSocketConnection.switch_role new_master "master" (some master_symbols)).2.1
    let st2 := { st1 with
      warm_standby_connections :=
        st1.warm_standby_connections.eraseP
          (fun c => c.connection_id == new_master.connection_id),
      master_connections := st1.master_connections.set master_index new1 }
    let old2 := WebSocketConnection.disconnect old1
    if reconnectOk then
      let old3 := (WebSocketConnection.connect old2 true).1
      let old4 := (WebSocketConnection.switch_role old3 "warm_standby"
        (some (get_heartbeat_symbols old3.exchange))).2.1
      let st3 :=
        if st2.warm_standby_connections.all (fun c => c.connection_id ≠ old4.connection_id) then
          { st2 with warm_standby_connections := st2.warm_standby_connections ++ [old4] }
        else st2
      (true, st3)
    else (true, st2)

/-- `ExchangeWebSocketPool._monitor_handle_master_failure`: select a
standby (an exception propagates to the scheduling loop, which only
logs it — the pool is left unchanged); without one, reconnect the
failed master in place; otherwise run the failover, falling back to a
reconnect of the failed master if it reports failure.  `retryOk` is the
success oracle of the in-place `connect()` calls. -/
def monitor_handle_master_failure (st : PoolState) (symbol_groups : List (List String))
    (master_index : Nat) (switchOk reconnectOk retryOk : Bool) :
    Except PyError PoolState :=
  match select_best_standby_from_pool st.warm_standby_connections with
  | .error e => .error e
  | .ok none =>
      let fm := st.master_connections.getD master_index dfltConn
      let fm1 := (WebSocketConnection.connect fm retryOk).1
      .ok { st with master_connections := st.master_connections.set master_index fm1 }
  | .ok (some standby) =>
      let res := monitor_execute_failover st symbol_groups master_index standby switchOk reconnectOk
      if res.1 then .ok res.2
      else
        let fm := res.2.master_connections.getD master_index dfltConn
        let fm1 := (WebSocketConnection.connect fm retryOk).1
        .ok { res.2 with master_connections := res.2.master_connections.set master_index fm1 }

end ExchangeWebSocketPool

/-- Numeric value of a decimal digit character. -/
def digitVal (c : Char) : Nat := c.toNat - 48

/-- The parse of the spec sentence `parse(s, UTC+8) - 8h ==
utc_from_millis(raw_ms)`: interpret a `YYYY-MM-DD HH:MM:SS` string as a
civil time and return its epoch milliseconds within that frame (the
claims subtract the eight-hour offset afterwards). -/
def parse_utc8 (s : String) : Option Nat :=
  match s.data with
  | [y1, y2, y3, y4, '-', m1, m2, '-', d1, d2, ' ', h1, h2, ':', n1, n2, ':', s1, s2] =>
      if [y1, y2, y3, y4, m1, m2, d1, d2, h1, h2, n1, n2, s1, s2].all Char.isDigit then
        let y := digitVal y1 * 1000 + digitVal y2 * 100 + digitVal y3 * 10 + digitVal y4
        let mo := digitVal m1 * 10 + digitVal m2
        let dy := digitVal d1 * 10 + digitVal d2
        let h := digitVal h1 * 10 + digitVal h2
        let mi := digitVal n1 * 10 + digitVal n2
        let sec := digitVal s1 * 10 + digitVal s2
        some ((Step3Align.daysFromCivil y mo dy * 86400 + h * 3600 + mi * 60 + sec) * 1000)
      else none
  | _ => none

/-- Total size of the slices that `balanceAux` assigns to the indices
`i, i+1, ..., i+k-1` (proof bookkeeping for the rebalancing loop). -/
def sizesSum (avg rem i : Nat) : Nat → Nat
  | 0 => 0
  | k + 1 => (avg + (if i < rem then 1 else 0)) + sizesSum avg rem (i + 1) k

theorem chunksFuel_flatten {α : Type} (p : Nat) (hp : 0 < p) :
    ∀ (fuel : Nat) (xs : List α), xs.length ≤ fuel →
      (chunksFuel p fuel xs).flatten = xs := by
  intro fuel
  induction fuel with
  | zero =>
      intro xs h
      cases xs with
      | nil => rfl
      | cons x rest => simp at h
  | succ n ih =>
      intro xs h
      cases xs with
      | nil => rfl
      | cons x rest =>
          simp only [chunksFuel, List.flatten_cons]
          rw [ih ((x :: rest).drop p)
            (by simp only [List.length_drop, List.length_cons] at h ⊢; omega)]
          exact List.take_append_drop p (x :: rest)

theorem chunks_flatten {α : Type} (p : Nat) (hp : 0 < p) (xs : List α) :
    (chunks p xs).flatten = xs :=
  chunksFuel_flatten p hp xs.length xs (Nat.le_refl _)

theorem chunksFuel_length {α : Type} (p : Nat) (hp : 0 < p) :
    ∀ (fuel : Nat) (xs : List α), xs.length ≤ fuel →
      (chunksFuel p fuel xs).length = (xs.length + p - 1) / p := by
  have h0 : (p - 1) / p = 0 := Nat.div_eq_of_lt (by omega)
  intro fuel
  induction fuel with
  | zero =>
      intro xs h
      cases xs with
      | nil => simp [chunksFuel, h0]
      | cons x rest => simp at h
  | succ n ih =>
      intro xs h
      cases xs with
      | nil => simp [chunksFuel, h0]
      | cons x rest =>
          simp only [chunksFuel, List.length_cons]
          rw [ih ((x :: rest).drop p)
            (by simp only [List.length_drop, List.length_cons] at h ⊢; omega)]
          simp only [List.length_drop, List.length_cons]
          by_cases hle : rest.length + 1 ≤ p
          · have h1 : rest.length + 1 - p = 0 := by omega
            rw [h1]
            have h3 : (rest.length + 1 + p - 1) / p = 1 := by
              have lo : 1 * p ≤ rest.length + 1 + p - 1 := by omega
              have hi : rest.length + 1 + p - 1 < (1 + 1) * p := by omega
              exact Nat.div_eq_of_lt_le lo hi
            simp only [Nat.zero_add, h0, h3]
          · have h1 : rest.length + 1 - p + p - 1 = rest.length := by omega
            have h2 : rest.length + 1 + p - 1 = rest.length + p := by omega
            rw [h1, h2, Nat.add_div_right _ hp]

theorem chunks_length {α : Type} (p : Nat) (hp : 0 < p) (xs : List α) :
    (chunks p xs).length = (xs.length + p - 1) / p :=
  chunksFuel_length p hp xs.length xs (Nat.le_refl _)

theorem sizesSum_eq (avg rem : Nat) :
    ∀ (k i : Nat), sizesSum avg rem i k = avg * k + (min rem (i + k) - min rem i) := by
  intro k
  induction k with
  | zero => intro i; simp [sizesSum]
  | succ n ih =>
      intro i
      simp only [sizesSum, ih (i + 1), Nat.mul_succ, Nat.min_def]
      split_ifs <;> omega

theorem balanceAux_spec (syms : List String) (avg rem : Nat) :
    ∀ (k i start : Nat), start + sizesSum avg rem i k = syms.length →
      (ExchangeWebSocketPool.balanceAux syms avg rem k i start).flatten = syms.drop start
      ∧ (ExchangeWebSocketPool.balanceAux syms avg rem k i start).length = k
      ∧ ∀ g ∈ ExchangeWebSocketPool.balanceAux syms avg rem k i start,
          g.length = avg ∨ g.length = avg + 1 := by
  intro k
  induction k with
  | zero =>
      intro i start h
      simp only [sizesSum, Nat.add_zero] at h
      subst h
      simp [ExchangeWebSocketPool.balanceAux, List.drop_length]
  | succ n ih =>
      intro i start h
      simp only [sizesSum] at h
      have hguard : start + (avg + (if i < rem then 1 else 0)) ≤ syms.length := by omega
      obtain ⟨ihf, ihl, ihs⟩ := ih (i + 1) (start + (avg + (if i < rem then 1 else 0)))
        (by omega)
      simp only [ExchangeWebSocketPool.balanceAux]
      rw [if_pos hguard]
      refine ⟨?_, by simp [ihl], ?_⟩
      · simp only [List.flatten_cons, ihf]
        have hdd : syms.drop (start + (avg + (if i < rem then 1 else 0)))
            = (syms.drop start).drop (avg + (if i < rem then 1 else 0)) := by
          rw [List.drop_drop, Nat.add_comm]
        rw [hdd, List.take_append_drop]
      · intro g hg
        rcases List.mem_cons.mp hg with hh | ht
        · subst hh
          have hlen : ((syms.drop start).take (avg + (if i < rem then 1 else 0))).length
              = avg + (if i < rem then 1 else 0) := by
            rw [List.length_take, List.length_drop]
            omega
          rw [hlen]
          by_cases hir : i < rem <;> simp [hir]
        · exact ihs g ht

theorem balance_groups_spec (syms : List String) (m : Nat) (hm : 0 < m) :
    (ExchangeWebSocketPool.balance_symbol_groups syms m).flatten = syms
    ∧ (ExchangeWebSocketPool.balance_symbol_groups syms m).length = m
    ∧ ∀ g ∈ ExchangeWebSocketPool.balance_symbol_groups syms m,
        g.length = syms.length / m ∨ g.length = syms.length / m + 1 := by
  have hmod : syms.length % m < m := Nat.mod_lt _ hm
  have hdm := Nat.div_add_mod syms.length m
  have hcomm : syms.length / m * m = m * (syms.length / m) := Nat.mul_comm _ _
  have hinv : (0 : Nat) + sizesSum (syms.length / m) (syms.length % m) 0 m = syms.length := by
    rw [sizesSum_eq, Nat.min_def, Nat.min_def]
    split_ifs <;> omega
  have := balanceAux_spec syms (syms.length / m) (syms.length % m) m 0 0 hinv
  simpa [ExchangeWebSocketPool.balance_symbol_groups, List.drop_zero] using this

/-- C4 — Symbol partitioning: with a non-empty symbol list, positive
per-master capacity `P` and positive master count `M`, `initialize`
first forms `⌈N/P⌉` contiguous chunks; when that count exceeds `M`, the
rebalancing yields exactly `M` groups whose sizes differ by at most 1;
in every case the concatenation of the groups is the configured symbol
list (nothing dropped, order preserved) and, for duplicate-free symbol
lists, the groups are pairwise disjoint. -/
theorem C4_symbol_partitioning (symbols : List String) (P M : Nat)
    (hne : symbols ≠ []) (hP : 0 < P) (hM : 0 < M) :
    (ExchangeWebSocketPool.initialGroups symbols P).length = (symbols.length + P - 1) / P
    ∧ (ExchangeWebSocketPool.initializeGroups symbols P M).flatten = symbols
    ∧ (M < (ExchangeWebSocketPool.initialGroups symbols P).length →
        (ExchangeWebSocketPool.initializeGroups symbols P M).length = M
        ∧ ∀ g1 ∈ ExchangeWebSocketPool.initializeGroups symbols P M,
          ∀ g2 ∈ ExchangeWebSocketPool.initializeGroups symbols P M,
            g1.length ≤ g2.length + 1)
    ∧ ((ExchangeWebSocketPool.initialGroups symbols P).length ≤ M →
        ExchangeWebSocketPool.initializeGroups symbols P M
          = ExchangeWebSocketPool.initialGroups symbols P)
    ∧ (symbols.Nodup →
        (ExchangeWebSocketPool.initializeGroups symbols P M).Pairwise List.Disjoint) := by
  obtain ⟨bf, bl, bs⟩ := balance_groups_spec symbols M hM
  have hsplit : ExchangeWebSocketPool.initializeGroups symbols P M
      = if M < (ExchangeWebSocketPool.initialGroups symbols P).length then
          ExchangeWebSocketPool.balance_symbol_groups symbols M
        else ExchangeWebSocketPool.initialGroups symbols P := rfl
  have hflat : (ExchangeWebSocketPool.initializeGroups symbols P M).flatten = symbols := by
    rw [hsplit]
    split
    · exact bf
    · exact chunks_flatten P hP symbols
  refine ⟨chunks_length P hP symbols, hflat, ?_, ?_, ?_⟩
  · intro hgt
    have hib : ExchangeWebSocketPool.initializeGroups symbols P M
        = ExchangeWebSocketPool.balance_symbol_groups symbols M := by
      rw [hsplit, if_pos hgt]
    rw [hib]
    refine ⟨bl, ?_⟩
    intro g1 h1 g2 h2
    rcases bs g1 h1 with e1 | e1 <;> rcases bs g2 h2 with e2 | e2 <;> omega
  · intro hle
    rw [hsplit, if_neg (by omega)]
  · intro hnd
    have : (ExchangeWebSocketPool.initializeGroups symbols P M).flatten.Nodup := by
      rw [hflat]; exact hnd
    exact ((List.nodup_flatten).mp this).2

/-- Closed instance of C4: five symbols, capacity 2, two masters — three
chunks rebalanced to two groups of sizes 3 and 2. -/
theorem C4_symbol_partitioning_witness :
    (["A", "B", "C", "D", "E"] : List String) ≠ [] ∧ 0 < 2 ∧ 0 < 2
    ∧ (ExchangeWebSocketPool.initialGroups ["A", "B", "C", "D", "E"] 2).length = (5 + 2 - 1) / 2
    ∧ (ExchangeWebSocketPool.initializeGroups ["A", "B", "C", "D", "E"] 2 2).flatten
      = ["A", "B", "C", "D", "E"] := by
  have h := C4_symbol_partitioning ["A", "B", "C", "D", "E"] 2 2 (by decide)
    (by decide) (by decide)
  exact ⟨by decide, by decide, by decide, h.1, h.2.1⟩

/-- C5, counterexample: for venue A and the single symbol
`BTC-USDT-SWAP`, the funding-rate entry appears in the subscribe frames
but in none of the unsubscribe frames, so the unsubscribed channel set
differs from the subscribed one. -/
theorem C5_unsubscribe_counterexample :
    (⟨"funding-rate", "BTC-USDT-SWAP"⟩ : WebSocketConnection.OkxArg) ∈
      ((WebSocketConnection.subscribe_okx ["BTC-USDT-SWAP"]).map (fun m => m.args)).flatten
    ∧ (⟨"funding-rate", "BTC-USDT-SWAP"⟩ : WebSocketConnection.OkxArg) ∉
      ((WebSocketConnection.unsubscribe_okx ["BTC-USDT-SWAP"]).map (fun m => m.args)).flatten := by
  decide

/-- C5, amended: for venue B the unsubscribe frames name exactly the
streams of the subscribe frames; for venue A the subscribe frames name
one `tickers` and one `funding-rate` entry per symbol while the
unsubscribe frames name only the `tickers` entries — the funding-rate
entries are never unsubscribed. -/
theorem C5_unsubscribe_channels (symbols : List String) :
    ((WebSocketConnection.unsubscribe_binance symbols).map (fun m => m.params)).flatten
      = ((WebSocketConnection.subscribe_binance symbols).map (fun m => m.params)).flatten
    ∧ ((WebSocketConnection.subscribe_okx symbols).map (fun m => m.args)).flatten
      = WebSocketConnection.okxAllSubscriptions symbols
    ∧ ((WebSocketConnection.unsubscribe_okx symbols).map (fun m => m.args)).flatten
      = symbols.map (fun s => ⟨"tickers", s⟩) := by
  refine ⟨?_, ?_, ?_⟩
  · have h1 : (WebSocketConnection.unsubscribe_binance symbols).map (fun m => m.params)
        = chunks 50 (WebSocketConnection.binanceStreams symbols) := by
      simp only [WebSocketConnection.unsubscribe_binance, List.map_map]
      exact List.map_id _
    have h2 : (WebSocketConnection.subscribe_binance symbols).map (fun m => m.params)
        = chunks 50 (WebSocketConnection.binanceStreams symbols) := by
      simp [WebSocketConnection.subscribe_binance, List.map_map, Function.comp]
      exact List.enum_map_snd _
    rw [h1, h2]
  · have h1 : (WebSocketConnection.subscribe_okx symbols).map (fun m => m.args)
        = chunks 50 (WebSocketConnection.okxAllSubscriptions symbols) := by
      simp only [WebSocketConnection.subscribe_okx, List.map_map]
      exact List.map_id _
    rw [h1]
    exact chunks_flatten 50 (by omega) _
  · have h1 : (WebSocketConnection.unsubscribe_okx symbols).map (fun m => m.args)
        = (chunks 10 symbols).map (fun b => b.map (fun s => ⟨"tickers", s⟩)) := by
      simp [WebSocketConnection.unsubscribe_okx, List.map_map, Function.comp]
    rw [h1, ← List.map_flatten, chunks_flatten 10 (by omega)]

theorem yoe_div100 (doe c : Nat) (hc : c ≤ 3) (h1 : 36524 * c ≤ doe)
    (h2 : doe < 36524 * (c + 1)) (h3 : doe < 146096) :
    ((doe - doe / 1460 + c) / 365) / 100 = c := by
  interval_cases c <;> omega

theorem yoe_band (doe c yoe : Nat) (hc : c ≤ 3) (h1 : 36524 * c ≤ doe)
    (h2 : doe < 36524 * (c + 1)) (h3 : doe < 146096)
    (hyoe : yoe = (doe - doe / 1460 + c) / 365)
    (h100 : yoe / 100 = c) :
    365 * yoe + yoe / 4 - yoe / 100 ≤ doe ∧
      doe - (365 * yoe + yoe / 4 - yoe / 100) ≤ 365 ∧ yoe ≤ 399 := by
  rw [h100]
  subst hyoe
  interval_cases c <;> omega

theorem yoe_correct (doe yoe : Nat) (h : doe ≤ 146096)
    (hyoe : yoe = (doe - doe / 1460 + doe / 36524 - doe / 146096) / 365) :
    365 * yoe + yoe / 4 - yoe / 100 ≤ doe ∧
      doe - (365 * yoe + yoe / 4 - yoe / 100) ≤ 365 ∧ yoe ≤ 399 := by
  by_cases hlt : doe < 146096
  · have hc : doe / 36524 ≤ 3 := by omega
    have hz : doe / 146096 = 0 := by omega
    have h100 : yoe / 100 = doe / 36524 := by
      rw [hyoe, hz]
      exact yoe_div100 doe (doe / 36524) hc (by omega) (by omega) hlt
    exact yoe_band doe (doe / 36524) yoe hc (by omega) (by omega) hlt (by omega) h100
  · have he : doe = 146096 := by omega
    subst he
    subst hyoe
    decide

theorem month_day_split (doy mp : Nat) (h : doy ≤ 365) (hmp : mp = (5 * doy + 2) / 153) :
    mp ≤ 11 ∧ (153 * mp + 2) / 5 ≤ doy ∧ doy - (153 * mp + 2) / 5 ≤ 30 := by
  subst hmp
  omega

theorem civilFromDays_correct (z y m d : Nat) (hz : z ≤ 2932896)
    (h : Step3Align.civilFromDays z = (y, m, d)) :
    Step3Align.daysFromCivil y m d = z
    ∧ 1970 ≤ y ∧ y ≤ 9999 ∧ 1 ≤ m ∧ m ≤ 12 ∧ 1 ≤ d ∧ d ≤ 31 := by
  have hdm := Nat.div_add_mod (z + 719468) 146097
  have hdoeLt : (z + 719468) % 146097 < 146097 := Nat.mod_lt _ (by omega)
  simp only [Step3Align.civilFromDays, Step3Align.yoeOfDoe, Step3Align.startOfYoe,
    Step3Align.mpOfDoy, Step3Align.doyOfMp] at h
  generalize hdoe : (z + 719468) % 146097 = doe at h hdm hdoeLt
  generalize hera : (z + 719468) / 146097 = era at h hdm
  have heraLe : era ≤ 24 := by omega
  have heraGe : 4 ≤ era := by omega
  obtain ⟨hA1, hA2, hA3⟩ := yoe_correct doe ((doe - doe / 1460 + doe / 36524 - doe / 146096) / 365)
    (by omega) rfl
  generalize hyoe : (doe - doe / 1460 + doe / 36524 - doe / 146096) / 365 = yoe
    at h hA1 hA2 hA3
  obtain ⟨hB1, hB2, hB3⟩ := month_day_split (doe - (365 * yoe + yoe / 4 - yoe / 100))
    ((5 * (doe - (365 * yoe + yoe / 4 - yoe / 100)) + 2) / 153) (by omega) rfl
  generalize hmp : (5 * (doe - (365 * yoe + yoe / 4 - yoe / 100)) + 2) / 153 = mp
    at h hB1 hB2 hB3
  by_cases hmpLt : mp < 10
  · rw [if_pos hmpLt] at h
    rw [if_neg (by omega : ¬ mp + 3 ≤ 2)] at h
    injection h with hy h2
    injection h2 with hm hd
    subst hy hm hd
    simp only [Step3Align.daysFromCivil, Step3Align.startOfYoe, Step3Align.doyOfMp]
    rw [if_neg (by omega : ¬ mp + 3 ≤ 2), if_pos (by omega : 2 < mp + 3)]
    have harg : mp + 3 - 3 = mp := by omega
    rw [harg]
    have hera4 : (yoe + era * 400) / 400 = era := by omega
    rw [hera4]
    have hyoe4 : yoe + era * 400 - era * 400 = yoe := by omega
    rw [hyoe4]
    refine ⟨by omega, ?_, by omega, by omega, by omega, by omega, by omega⟩
    -- 1970 ≤ yoe + era * 400: with era = 4 the day of era is at least
    -- 135080, which forces yoe ≥ 370 in the March-December branch
    by_cases h4 : era = 4
    · subst h4
      by_cases hy : 370 ≤ yoe
      · omega
      · omega
    · omega
  · rw [if_neg hmpLt] at h
    rw [if_pos (by omega : mp - 9 ≤ 2)] at h
    injection h with hy h2
    injection h2 with hm hd
    subst hy hm hd
    simp only [Step3Align.daysFromCivil, Step3Align.startOfYoe, Step3Align.doyOfMp]
    rw [if_pos (by omega : mp - 9 ≤ 2), if_neg (by omega : ¬ 2 < mp - 9)]
    have harg : mp - 9 + 9 = mp := by omega
    rw [harg]
    have hcancel : yoe + era * 400 + 1 - 1 = yoe + era * 400 := by omega
    rw [hcancel]
    have hera4 : (yoe + era * 400) / 400 = era := by omega
    rw [hera4]
    have hyoe4 : yoe + era * 400 - era * 400 = yoe := by omega
    rw [hyoe4]
    refine ⟨by omega, ?_, ?_, by omega, by omega, by omega, by omega⟩
    · -- 1970 ≤ yoe + era * 400 + 1: with era = 4 the day of era is at
      -- least 135080, which forces yoe ≥ 369 in the January/February
      -- branch
      by_cases h4 : era = 4
      · subst h4
        by_cases hy : 369 ≤ yoe
        · omega
        · omega
      · omega
    · -- yoe + era * 400 + 1 ≤ 9999: era = 24 with yoe = 399 would place
      -- the day of era beyond the last supported day
      by_cases h24 : era = 24
      · subst h24
        by_cases hy : yoe ≤ 398
        · omega
        · omega
      · omega

theorem digitChar_isDigit (k : Nat) (h : k < 10) :
    (Step3Align.digitChar k).isDigit = true := by
  interval_cases k <;> decide

theorem digitVal_digitChar (k : Nat) (h : k < 10) :
    digitVal (Step3Align.digitChar k) = k := by
  interval_cases k <;> decide

theorem digit2_recombine (n : Nat) (h : n ≤ 99) :
    digitVal (Step3Align.digitChar (n / 10 % 10)) * 10
      + digitVal (Step3Align.digitChar (n % 10)) = n := by
  rw [digitVal_digitChar _ (Nat.mod_lt _ (by omega)),
    digitVal_digitChar _ (Nat.mod_lt _ (by omega))]
  omega

theorem digit4_recombine (n : Nat) (h : n ≤ 9999) :
    digitVal (Step3Align.digitChar (n / 1000 % 10)) * 1000
      + digitVal (Step3Align.digitChar (n / 100 % 10)) * 100
      + digitVal (Step3Align.digitChar (n / 10 % 10)) * 10
      + digitVal (Step3Align.digitChar (n % 10)) = n := by
  rw [digitVal_digitChar _ (Nat.mod_lt _ (by omega)),
    digitVal_digitChar _ (Nat.mod_lt _ (by omega)),
    digitVal_digitChar _ (Nat.mod_lt _ (by omega)),
    digitVal_digitChar _ (Nat.mod_lt _ (by omega))]
  omega

theorem parse_render (y mo dy hh mi ss : Nat) (hy1 : 1000 ≤ y) (hy2 : y ≤ 9999)
    (hmo : mo ≤ 99) (hdy : dy ≤ 99) (hhh : hh ≤ 99) (hmi : mi ≤ 99) (hss : ss ≤ 99) :
    parse_utc8 (Step3Align.renderCivil y mo dy hh mi ss)
      = some ((Step3Align.daysFromCivil y mo dy * 86400 + hh * 3600 + mi * 60 + ss) * 1000) := by
  have hstring : Step3Align.renderCivil y mo dy hh mi ss
      = ⟨[Step3Align.digitChar (y / 1000 % 10), Step3Align.digitChar (y / 100 % 10),
          Step3Align.digitChar (y / 10 % 10), Step3Align.digitChar (y % 10), '-',
          Step3Align.digitChar (mo / 10 % 10), Step3Align.digitChar (mo % 10), '-',
          Step3Align.digitChar (dy / 10 % 10), Step3Align.digitChar (dy % 10), ' ',
          Step3Align.digitChar (hh / 10 % 10), Step3Align.digitChar (hh % 10), ':',
          Step3Align.digitChar (mi / 10 % 10), Step3Align.digitChar (mi % 10), ':',
          Step3Align.digitChar (ss / 10 % 10), Step3Align.digitChar (ss % 10)]⟩ := rfl
  rw [hstring]
  simp only [parse_utc8]
  simp only [List.all_cons, List.all_nil,
    digitChar_isDigit _ (Nat.mod_lt _ (by omega : (0:Nat) < 10)),
    Bool.true_and, Bool.and_true, if_true]
  rw [digit4_recombine y hy2, digit2_recombine mo hmo, digit2_recombine dy hdy,
    digit2_recombine hh hhh, digit2_recombine mi hmi, digit2_recombine ss hss]

set_option maxRecDepth 4000 in
/-- C8, counterexample: for `t_ms = 1001` (not a multiple of 1000 ms) S3
renders `1970-01-01 08:00:01`; parsing that string in the UTC+8 frame
and subtracting eight hours gives 1000 ms, not 1001 ms — the claimed
exact round-trip of the instant fails. -/
theorem C8_roundtrip_counterexample :
    Step3Align.ts_to_str (some 1001) = some "1970-01-01 08:00:01"
    ∧ parse_utc8 "1970-01-01 08:00:01" = some 28801000
    ∧ ¬ (28801000 - 8 * 3600 * 1000 = 1001) := by
  refine ⟨by decide, by decide, by decide⟩

set_option maxRecDepth 4000 in
/-- C8, amended: for every timestamp `t_ms > 0` within the formatting
range, the S3 string `s` satisfies
`parse(s, UTC+8) - 8h = 1000 * floor(t_ms / 1000)` — the instant
truncated to whole seconds; the round-trip is exact precisely when
`t_ms` is a whole multiple of 1000 ms. -/
theorem C8_time_string_truncation (t : Int) (h0 : 0 < t)
    (hrange : t.toNat / 1000 + 28800 < 253402300800) :
    ∃ s : String, Step3Align.ts_to_str (some t) = some s
      ∧ parse_utc8 s = some (1000 * (t.toNat / 1000) + 28800000)
      ∧ (1000 * (t.toNat / 1000) = t.toNat ↔ 1000 ∣ t.toNat) := by
  have hnot : ¬ t ≤ 0 := by omega
  have hts : Step3Align.ts_to_str (some t)
      = some (Step3Align.renderCivil
          (Step3Align.civilFromDays ((t.toNat / 1000 + 28800) / 86400)).1
          (Step3Align.civilFromDays ((t.toNat / 1000 + 28800) / 86400)).2.1
          (Step3Align.civilFromDays ((t.toNat / 1000 + 28800) / 86400)).2.2
          ((t.toNat / 1000 + 28800) % 86400 / 3600)
          ((t.toNat / 1000 + 28800) % 86400 % 3600 / 60)
          ((t.toNat / 1000 + 28800) % 86400 % 60)) := by
    simp only [Step3Align.ts_to_str, if_neg hnot, if_pos hrange]
  have hdlt : (t.toNat / 1000 + 28800) / 86400 ≤ 2932896 := by omega
  obtain ⟨hrt, hy1, hy2, hm1, hm2, hd1, hd2⟩ :=
    civilFromDays_correct ((t.toNat / 1000 + 28800) / 86400)
      (Step3Align.civilFromDays ((t.toNat / 1000 + 28800) / 86400)).1
      (Step3Align.civilFromDays ((t.toNat / 1000 + 28800) / 86400)).2.1
      (Step3Align.civilFromDays ((t.toNat / 1000 + 28800) / 86400)).2.2 hdlt rfl
  refine ⟨_, hts, ?_, by omega⟩
  rw [parse_render _ _ _ _ _ _ (by omega) (by omega) (by omega) (by omega)
    (by omega) (by omega) (by omega)]
  rw [hrt]
  simp only [Option.some.injEq]
  omega

set_option maxRecDepth 4000 in
/-- Closed instance of the amended C8 at `t_ms = 1700000000000`. -/
theorem C8_time_string_truncation_witness :
    (0 : Int) < 1700000000000
    ∧ (1700000000000 : Int).toNat / 1000 + 28800 < 253402300800
    ∧ ∃ s : String, Step3Align.ts_to_str (some 1700000000000) = some s
        ∧ parse_utc8 s = some (1000 * ((1700000000000 : Int).toNat / 1000) + 28800000)
        ∧ (1000 * ((1700000000000 : Int).toNat / 1000) = (1700000000000 : Int).toNat
            ↔ 1000 ∣ (1700000000000 : Int).toNat) :=
  ⟨by decide, by decide, C8_time_string_truncation 1700000000000 (by decide) (by decide)⟩

/-- C1, counterexample: ingesting the four events of the both-venues
scenario in order, one event per invocation, does not make S5 emit
exactly one record — nothing at all is emitted, because S3 only keeps
symbols present on both venues within a single invocation and each
invocation carries a single-venue event. -/
theorem C1_scenario_counterexample :
    ¬ (PipelineManager.ingestSeq scenarioEvents).length = 1 := by
  have h : PipelineManager.ingestSeq scenarioEvents = [] := rfl
  rw [h]
  decide

/-- C1, amended: each of the four scenario ingest invocations dies
before S5 (the okx-only and binance-ticker-only invocations at S3 or
S2), so the pipeline emits zero final records for the scenario. -/
theorem C1_scenario_emits_nothing :
    PipelineManager.process_market_data scenarioOkxTicker = []
    ∧ PipelineManager.process_market_data scenarioOkxFunding = []
    ∧ PipelineManager.process_market_data scenarioBinanceTicker = []
    ∧ PipelineManager.process_market_data scenarioBinanceMark = []
    ∧ PipelineManager.ingestSeq scenarioEvents = [] :=
  ⟨rfl, rfl, rfl, rfl, rfl⟩

/-- C6, counterexample: the connection-level canonicalization only
rewrites the literal `-USDT-SWAP`, so the non-USDT instrument
`ETH-USD-SWAP` is left unchanged instead of becoming `ETHUSD` (which is
what stripping `-SWAP` and removing dashes yields). -/
theorem C6_conn_canonical_counterexample :
    WebSocketConnection.processedOkxSymbol "ETH-USD-SWAP" = "ETH-USD-SWAP"
    ∧ Step1Filter.okxNormalize "ETH-USD-SWAP" = "ETHUSD"
    ∧ "ETH-USD-SWAP" ≠ "ETHUSD" := by
  refine ⟨by decide, by decide, by decide⟩

/-- C6, amended: S1 extraction canonicalizes every okx event whose
payload carries a non-empty instrument string by removing `-SWAP` and
all dashes; the connection-level processing instead replaces only the
literal `-USDT-SWAP` by `USDT`, which agrees on USDT instruments such as
`BTC-USDT-SWAP` but leaves non-USDT instruments such as `ETH-USD-SWAP`
unchanged. -/
theorem C6_canonicalization :
    (∀ tk ex item payload e, Step1Filter.finishItem tk ex item payload = some e →
      isStrV e.exchange "okx" = true →
      ∀ i, pgetD e.payload "contract_name" (.vstr "") = .vstr i → i ≠ "" →
        e.symbol = Step1Filter.okxNormalize i)
    ∧ Step1Filter.okxNormalize "BTC-USDT-SWAP" = "BTCUSDT"
    ∧ Step1Filter.okxNormalize "ETH-USD-SWAP" = "ETHUSD"
    ∧ WebSocketConnection.processedOkxSymbol "BTC-USDT-SWAP" = "BTCUSDT"
    ∧ WebSocketConnection.processedOkxSymbol "ETH-USD-SWAP" = "ETH-USD-SWAP" := by
  refine ⟨?_, by decide, by decide, by decide, by decide⟩
  intro tk ex item payload e hfin hok i hcontract hne
  simp only [Step1Filter.finishItem] at hfin
  by_cases hex : isStrV ex "okx" = true
  · rw [if_pos hex] at hfin
    cases hsym : Step1Filter.okxSymbolOf (pyFStr (pgetD item "symbol" (.vstr "")))
        (pgetD payload "contract_name" (.vstr "")) with
    | none => rw [hsym] at hfin; exact absurd hfin (by simp)
    | some sym =>
        rw [hsym] at hfin
        simp only [Option.some.injEq] at hfin
        subst hfin
        simp only at hcontract
        rw [hcontract] at hsym
        simp only [Step1Filter.okxSymbolOf, if_pos hne, Option.some.injEq] at hsym
        simp only
        rw [← hsym]
  · rw [if_neg hex] at hfin
    simp only [Option.some.injEq] at hfin
    subst hfin
    simp only at hok
    exact absurd hok hex

/-- Closed instance of the amended C6: the S1 tail on the scenario okx
ticker payload attaches `okxNormalize "BTC-USDT-SWAP" = "BTCUSDT"`. -/
theorem C6_canonicalization_witness :
    Step1Filter.finishItem "okx_ticker" (some (.vstr "okx"))
        [("symbol", .vstr "BTCUSDT")]
        [("contract_name", .vstr "BTC-USDT-SWAP"), ("latest_price", .vstr "60000")]
      = some ⟨"okx_ticker", some (.vstr "okx"), "BTCUSDT",
          [("contract_name", .vstr "BTC-USDT-SWAP"), ("latest_price", .vstr "60000")]⟩
    ∧ (⟨"okx_ticker", some (.vstr "okx"), "BTCUSDT",
          [("contract_name", .vstr "BTC-USDT-SWAP"), ("latest_price", .vstr "60000")]⟩ :
        Step1Filter.ExtractedData).symbol
      = Step1Filter.okxNormalize "BTC-USDT-SWAP" :=
  ⟨rfl, C6_canonicalization.1 "okx_ticker" (some (.vstr "okx"))
    [("symbol", .vstr "BTCUSDT")]
    [("contract_name", .vstr "BTC-USDT-SWAP"), ("latest_price", .vstr "60000")]
    _ rfl rfl "BTC-USDT-SWAP" rfl (by decide)⟩

/-- C2: whenever a master failure is handled while at least one standby
is connected and not active, the selection evaluates
`conn.last_message_seconds_ago` — an attribute `WebSocketConnection`
never defines — so the handler raises `AttributeError` instead of
selecting and promoting the best standby; the monitor loop merely logs
the exception and the pool is left unchanged for this tick. -/
theorem C2_standby_selection_raises (st : ExchangeWebSocketPool.PoolState)
    (symbol_groups : List (List String)) (master_index : Nat)
    (switchOk reconnectOk retryOk : Bool)
    (h : ∃ c ∈ st.warm_standby_connections, c.connected = true ∧ c.is_active = false) :
    ExchangeWebSocketPool.monitor_handle_master_failure st symbol_groups master_index
        switchOk reconnectOk retryOk
      = .error .attributeError := by
  obtain ⟨c, hc, h1, h2⟩ := h
  have hav : st.warm_standby_connections.filter
      (fun c => c.connected && !c.is_active) ≠ [] := by
    intro he
    have hmem : c ∈ st.warm_standby_connections.filter
        (fun c => c.connected && !c.is_active) :=
      List.mem_filter.mpr ⟨hc, by simp [h1, h2]⟩
    rw [he] at hmem
    simp at hmem
  simp only [ExchangeWebSocketPool.monitor_handle_master_failure,
    ExchangeWebSocketPool.select_best_standby_from_pool]
  cases hfa : st.warm_standby_connections.filter
      (fun c => c.connected && !c.is_active) with
  | nil => exact absurd hfa hav
  | cons c0 rest =>
      simp [hfa, ExchangeWebSocketPool.standbyKey,
        ExchangeWebSocketPool.last_message_seconds_ago, Bind.bind, Except.bind]

/-- Closed instance of C2: one disconnected master, one connected idle
standby — the handler returns the AttributeError instead of promoting
the standby. -/
theorem C2_standby_selection_raises_witness :
    (∃ c ∈ [(⟨"binance", "binance_warm_0", "warm_standby", ["BTCUSDT"],
        true, true, false, 0⟩ : WebSocketConnection.Conn)],
      c.connected = true ∧ c.is_active = false)
    ∧ ExchangeWebSocketPool.monitor_handle_master_failure
        ⟨[⟨"binance", "binance_master_0", "master", ["ETHUSDT"],
            false, false, false, 0⟩],
          [⟨"binance", "binance_warm_0", "warm_standby", ["BTCUSDT"],
            true, true, false, 0⟩]⟩
        [["ETHUSDT"]] 0 true true true
      = .error .attributeError :=
  ⟨⟨⟨"binance", "binance_warm_0", "warm_standby", ["BTCUSDT"],
      true, true, false, 0⟩, by simp, rfl, rfl⟩,
    C2_standby_selection_raises _ _ _ _ _ _
      ⟨⟨"binance", "binance_warm_0", "warm_standby", ["BTCUSDT"],
        true, true, false, 0⟩, by simp, rfl, rfl⟩⟩

theorem conn_disconnect_id (c : WebSocketConnection.Conn) :
    (WebSocketConnection.disconnect c).connection_id = c.connection_id := rfl

theorem conn_connect_id (c : WebSocketConnection.Conn) (ok : Bool) :
    ((WebSocketConnection.connect c ok).1).connection_id = c.connection_id := by
  simp only [WebSocketConnection.connect]
  split_ifs <;> rfl

theorem conn_switch_role_id (c : WebSocketConnection.Conn) (r : String)
    (s : Option (List String)) :
    ((WebSocketConnection.switch_role c r s).2.1).connection_id = c.connection_id := by
  rcases s with _ | ⟨_ | ⟨s0, srest⟩⟩ <;>
    simp only [WebSocketConnection.switch_role] <;>
    split_ifs <;> rfl

/-- C3, amended: one execution of the failover routine never changes the
number of masters, and it preserves `|masters| + |warm_standbys|`
whenever the old master reconnect of step 3 succeeds (for any outcome of
the role switch).  When the reconnect fails the old master is dropped
from both lists and the sum decreases by one, as the counterexample
shows — the original claim of sum preservation regardless of the
reconnect outcome does not hold. -/
theorem C3_failover_preserves_pool_size (st : ExchangeWebSocketPool.PoolState)
    (symbol_groups : List (List String)) (master_index : Nat)
    (new_master : WebSocketConnection.Conn) (switchOk : Bool)
    (hmem : new_master.connection_id ∈ st.warm_standby_connections.map
      (fun c => c.connection_id))
    (hold : (st.master_connections.getD master_index
        ExchangeWebSocketPool.dfltConn).connection_id
      ∉ st.warm_standby_connections.map (fun c => c.connection_id)) :
    ((ExchangeWebSocketPool.monitor_execute_failover st symbol_groups master_index
        new_master switchOk true).2).master_connections.length
      = st.master_connections.length
    ∧ ((ExchangeWebSocketPool.monitor_execute_failover st symbol_groups master_index
          new_master switchOk true).2).master_connections.length
        + ((ExchangeWebSocketPool.monitor_execute_failover st symbol_groups master_index
          new_master switchOk true).2).warm_standby_connections.length
      = st.master_connections.length + st.warm_standby_connections.length := by
  obtain ⟨cm, hcm, hcmid⟩ := List.mem_map.mp hmem
  simp only [ExchangeWebSocketPool.monitor_execute_failover]
  by_cases hsw : switchOk
  · simp only [hsw, Bool.not_true, Bool.false_eq_true, if_false]
    have hid : ((WebSocketConnection.switch_role
        ((WebSocketConnection.connect (WebSocketConnection.disconnect
          { st.master_connections.getD master_index ExchangeWebSocketPool.dfltConn
              with symbols := [] }) true).1) "warm_standby"
        (some (ExchangeWebSocketPool.get_heartbeat_symbols
          ((WebSocketConnection.connect (WebSocketConnection.disconnect
            { st.master_connections.getD master_index ExchangeWebSocketPool.dfltConn
                with symbols := [] }) true).1).exchange))).2.1).connection_id
      = (st.master_connections.getD master_index
          ExchangeWebSocketPool.dfltConn).connection_id := by
      rw [conn_switch_role_id, conn_connect_id, conn_disconnect_id]
    have hall : (((st.warm_standby_connections).eraseP
        (fun c => c.connection_id == new_master.connection_id)).all
        (fun c => decide (c.connection_id
          ≠ (st.master_connections.getD master_index
            ExchangeWebSocketPool.dfltConn).connection_id))) = true := by
      rw [List.all_eq_true]
      intro c hc
      have hcs : c ∈ st.warm_standby_connections := List.mem_of_mem_eraseP hc
      have hne : c.connection_id ≠ (st.master_connections.getD master_index
          ExchangeWebSocketPool.dfltConn).connection_id :=
        fun he => hold (he ▸ List.mem_map_of_mem _ hcs)
      simpa using hne
    have herase : ((st.warm_standby_connections).eraseP
        (fun c => c.connection_id == new_master.connection_id)).length + 1
        = st.warm_standby_connections.length :=
      List.length_eraseP_add_one hcm (by simp [hcmid])
    simp only [hid, hall, if_true, List.length_append, List.length_set]
    refine ⟨by trivial, ?_⟩
    simp only [List.length_singleton]
    omega
  · simp only [hsw, Bool.not_false, if_true]
    simp [List.length_set]

/-- C3, counterexample: a failover in a one-master, one-standby pool
where the old master reconnect fails shrinks
`|masters| + |warm_standbys|` from 2 to 1 — the routine promotes the
standby but drops the dead master from both lists. -/
theorem C3_failover_sum_counterexample :
    ((ExchangeWebSocketPool.monitor_execute_failover
        ⟨[⟨"binance", "m0", "master", ["ETHUSDT"], false, false, false, 0⟩],
          [⟨"binance", "w0", "warm_standby", ["BTCUSDT"], true, true, false, 0⟩]⟩
        [["ETHUSDT"]] 0
        ⟨"binance", "w0", "warm_standby", ["BTCUSDT"], true, true, false, 0⟩
        true false).2).master_connections.length
      + ((ExchangeWebSocketPool.monitor_execute_failover
        ⟨[⟨"binance", "m0", "master", ["ETHUSDT"], false, false, false, 0⟩],
          [⟨"binance", "w0", "warm_standby", ["BTCUSDT"], true, true, false, 0⟩]⟩
        [["ETHUSDT"]] 0
        ⟨"binance", "w0", "warm_standby", ["BTCUSDT"], true, true, false, 0⟩
        true false).2).warm_standby_connections.length ≠ 1 + 1 := by
  decide

/-- Closed instance of the amended C3: same one-master, one-standby pool
with a successful reconnect — the sum is preserved. -/
theorem C3_failover_preserves_pool_size_witness :
    (("w0" : String) ∈ ([⟨"binance", "w0", "warm_standby", ["BTCUSDT"],
        true, true, false, 0⟩] : List WebSocketConnection.Conn).map
        (fun c => c.connection_id))
    ∧ ((ExchangeWebSocketPool.monitor_execute_failover
        ⟨[⟨"binance", "m0", "master", ["ETHUSDT"], false, false, false, 0⟩],
          [⟨"binance", "w0", "warm_standby", ["BTCUSDT"], true, true, false, 0⟩]⟩
        [["ETHUSDT"]] 0
        ⟨"binance", "w0", "warm_standby", ["BTCUSDT"], true, true, false, 0⟩
        true true).2).master_connections.length
      + ((ExchangeWebSocketPool.monitor_execute_failover
        ⟨[⟨"binance", "m0", "master", ["ETHUSDT"], false, false, false, 0⟩],
          [⟨"binance", "w0", "warm_standby", ["BTCUSDT"], true, true, false, 0⟩]⟩
        [["ETHUSDT"]] 0
        ⟨"binance", "w0", "warm_standby", ["BTCUSDT"], true, true, false, 0⟩
        true true).2).warm_standby_connections.length = 1 + 1 :=
  ⟨by decide,
    ((C3_failover_preserves_pool_size
      ⟨[⟨"binance", "m0", "master", ["ETHUSDT"], false, false, false, 0⟩],
        [⟨"binance", "w0", "warm_standby", ["BTCUSDT"], true, true, false, 0⟩]⟩
      [["ETHUSDT"]] 0
      ⟨"binance", "w0", "warm_standby", ["BTCUSDT"], true, true, false, 0⟩
      true (by decide) (by decide)).2).trans (by decide)⟩

/-- C7 — Venue-B fusion postcondition: a group merges to an output only
if it contains a mark-price event; every output carries the (non-null)
funding rate of the first mark-price event of the group; a group without
a mark-price event, or whose mark-price event has a null funding rate,
yields no output. -/
theorem C7_binance_fusion (items : List Step1Filter.ExtractedData)
    (f0 : Step2Fusion.FusedData) :
    (∀ f, Step2Fusion.merge_binance items f0 = some f →
      (∃ it ∈ items, it.data_type = "binance_mark_price")
      ∧ f.funding_rate.isNull = false
      ∧ ∃ mk, items.find? (fun it => it.data_type == "binance_mark_price") = some mk
          ∧ f.funding_rate = pget mk.payload "funding_rate")
    ∧ (items.find? (fun it => it.data_type == "binance_mark_price") = none →
        Step2Fusion.merge_binance items f0 = none)
    ∧ (∀ mk, items.find? (fun it => it.data_type == "binance_mark_price") = some mk →
        (pget mk.payload "funding_rate").isNull = true →
        Step2Fusion.merge_binance items f0 = none) := by
  refine ⟨?_, ?_, ?_⟩
  · intro f hf
    cases hfind : items.find? (fun it => it.data_type == "binance_mark_price") with
    | none =>
        simp only [Step2Fusion.merge_binance, hfind] at hf
        exact Option.noConfusion hf
    | some mk =>
        simp only [Step2Fusion.merge_binance, hfind] at hf
        cases hn : (pget mk.payload "funding_rate").isNull with
        | true => simp [hn] at hf
        | false =>
            simp only [hn, Bool.false_eq_true, if_false] at hf
            cases hft : items.find? (fun it => it.data_type == "binance_ticker") <;>
              cases hfs : items.find?
                  (fun it => it.data_type == "binance_funding_settlement") <;>
              simp only [hft, hfs, Option.some.injEq] at hf <;>
              subst hf <;>
              exact ⟨⟨mk, List.mem_of_find?_eq_some hfind,
                  by simpa using List.find?_some hfind⟩,
                by simpa using hn, mk, rfl, rfl⟩
  · intro hnone
    simp [Step2Fusion.merge_binance, hnone]
  · intro mk hfind hnull
    simp [Step2Fusion.merge_binance, hfind, hnull]

/-- Closed instance of C7: a single mark-price event merges and carries
its funding rate. -/
theorem C7_binance_fusion_witness :
    Step2Fusion.merge_binance
        [⟨"binance_mark_price", some (.vstr "binance"), "BTCUSDT",
          [("contract_name", .vstr "BTCUSDT"), ("funding_rate", .vstr "0.00010"),
            ("current_settlement_time", .vint 1700000000000)]⟩]
        ⟨some (.vstr "binance"), "BTCUSDT", .vstr "", .vnull, .vnull, none, none, none⟩
      = some ⟨some (.vstr "binance"), "BTCUSDT", .vstr "BTCUSDT", .vnull,
          .vstr "0.00010", none, some 1700000000000, none⟩
    ∧ (Value.vstr "0.00010").isNull = false :=
  ⟨rfl, ((C7_binance_fusion
    [⟨"binance_mark_price", some (.vstr "binance"), "BTCUSDT",
      [("contract_name", .vstr "BTCUSDT"), ("funding_rate", .vstr "0.00010"),
        ("current_settlement_time", .vint 1700000000000)]⟩]
    ⟨some (.vstr "binance"), "BTCUSDT", .vstr "", .vnull, .vnull, none, none, none⟩).1
    ⟨some (.vstr "binance"), "BTCUSDT", .vstr "BTCUSDT", .vnull,
      .vstr "0.00010", none, some 1700000000000, none⟩ rfl).2.1⟩

theorem ts_to_str_invalid (ts : Option Int)
    (h : ts = none ∨ ∃ t, ts = some t ∧ t ≤ 0) :
    Step3Align.ts_to_str ts = none := by
  rcases h with h | ⟨t, h, ht⟩ <;> subst h <;> simp [Step3Align.ts_to_str]
  intro hc
  omega

theorem isStrV_eq {v : Option Value} {s : String} (h : isStrV v s = true) :
    v = some (.vstr s) := by
  cases v with
  | none => simp [isStrV] at h
  | some w =>
      cases w <;> simp [isStrV] at h
      subst h
      rfl

/-- C9 — S3 invalid-timestamp tolerance: a settlement timestamp that is
absent or non-positive formats to `none` in every corresponding string
field of the aligned record, while the record is still produced (the
aligned pair of a both-venue symbol yields exactly one record). -/
theorem C9_invalid_timestamp_tolerance (sym : String)
    (o b : Step2Fusion.FusedData) :
    ((o.current_settlement_time = none
        ∨ ∃ t, o.current_settlement_time = some t ∧ t ≤ 0) →
      (Step3Align.align_item sym o b).okx_current_settlement = none)
    ∧ ((o.next_settlement_time = none
        ∨ ∃ t, o.next_settlement_time = some t ∧ t ≤ 0) →
      (Step3Align.align_item sym o b).okx_next_settlement = none)
    ∧ ((b.last_settlement_time = none
        ∨ ∃ t, b.last_settlement_time = some t ∧ t ≤ 0) →
      (Step3Align.align_item sym o b).binance_last_settlement = none)
    ∧ ((b.current_settlement_time = none
        ∨ ∃ t, b.current_settlement_time = some t ∧ t ≤ 0) →
      (Step3Align.align_item sym o b).binance_current_settlement = none)
    ∧ (isStrV o.exchange "okx" = true → isStrV b.exchange "binance" = true →
        o.symbol = sym → b.symbol = sym →
        Step3Align.process [o, b] = [Step3Align.align_item sym o b]) := by
  refine ⟨fun h => by simp [Step3Align.align_item, ts_to_str_invalid _ h],
    fun h => by simp [Step3Align.align_item, ts_to_str_invalid _ h],
    fun h => by simp [Step3Align.align_item, ts_to_str_invalid _ h],
    fun h => by simp [Step3Align.align_item, ts_to_str_invalid _ h], ?_⟩
  intro ho hb hos hbs
  have hob : isStrV b.exchange "okx" = false := by
    rw [isStrV_eq hb]
    decide
  have hbo : isStrV o.exchange "binance" = false := by
    rw [isStrV_eq ho]
    decide
  have h1 : Step3Align.lastOkx [o, b] sym = some o := by
    simp [Step3Align.lastOkx, List.filter, hos, hbs, ho, hob]
  have h2 : Step3Align.lastBinance [o, b] sym = some b := by
    simp [Step3Align.lastBinance, List.filter, hos, hbs, hb, hbo]
  simp [Step3Align.process, hos, hbs, uniqueKeys, h1, h2]

/-- Closed instance of C9: `current_settlement_ts = -1` on the binance
side yields `current_settlement = none` and the record is still
produced. -/
theorem C9_invalid_timestamp_tolerance_witness :
    ((∃ t, (some (-1 : Int)) = some t ∧ t ≤ 0)
    ∧ (Step3Align.align_item "BTCUSDT"
        ⟨some (.vstr "okx"), "BTCUSDT", .vstr "BTC-USDT-SWAP", .vstr "60000",
          .vstr "0.00012", none, some 1700000000000, some 1700028800000⟩
        ⟨some (.vstr "binance"), "BTCUSDT", .vstr "BTCUSDT", .vstr "60010",
          .vstr "0.00010", none, some (-1), none⟩).binance_current_settlement = none)
    ∧ Step3Align.process
        [⟨some (.vstr "okx"), "BTCUSDT", .vstr "BTC-USDT-SWAP", .vstr "60000",
          .vstr "0.00012", none, some 1700000000000, some 1700028800000⟩,
          ⟨some (.vstr "binance"), "BTCUSDT", .vstr "BTCUSDT", .vstr "60010",
          .vstr "0.00010", none, some (-1), none⟩]
      = [Step3Align.align_item "BTCUSDT"
          ⟨some (.vstr "okx"), "BTCUSDT", .vstr "BTC-USDT-SWAP", .vstr "60000",
            .vstr "0.00012", none, some 1700000000000, some 1700028800000⟩
          ⟨some (.vstr "binance"), "BTCUSDT", .vstr "BTCUSDT", .vstr "60010",
            .vstr "0.00010", none, some (-1), none⟩] :=
  ⟨⟨⟨-1, rfl, by decide⟩,
    (C9_invalid_timestamp_tolerance "BTCUSDT" _ _).2.2.2.1
      (Or.inr ⟨-1, rfl, by decide⟩)⟩,
    (C9_invalid_timestamp_tolerance "BTCUSDT" _ _).2.2.2.2 rfl rfl rfl rfl⟩

/-- C10 — Implicit demotion default: demoting a connected master to warm
standby with absent or empty symbols adopts the hard-coded per-venue
heartbeat slice (`BTCUSDT` for binance, `BTC-USDT-SWAP` for okx),
subscribes to it, clears the active flag and returns true; the frames
sent are the unsubscribe of the old slice (when subscribed) followed by
the heartbeat subscription. -/
theorem C10_demotion_heartbeat_default (c : WebSocketConnection.Conn)
    (s : Option (List String))
    (hconn : c.connected = true) (hrole : c.connection_type = "master")
    (hex : c.exchange = "binance" ∨ c.exchange = "okx")
    (hs : s = none ∨ s = some []) :
    (WebSocketConnection.switch_role c "warm_standby" s).1 = true
    ∧ ((WebSocketConnection.switch_role c "warm_standby" s).2.1).symbols
      = ExchangeWebSocketPool.get_heartbeat_symbols c.exchange
    ∧ ((WebSocketConnection.switch_role c "warm_standby" s).2.1).subscribed = true
    ∧ ((WebSocketConnection.switch_role c "warm_standby" s).2.1).is_active = false
    ∧ (WebSocketConnection.switch_role c "warm_standby" s).2.2
      = (if c.subscribed = true then
          WebSocketConnection.unsubscribeMsgs c.exchange c.symbols else [])
        ++ WebSocketConnection.subscribeMsgs c.exchange
            (ExchangeWebSocketPool.get_heartbeat_symbols c.exchange) := by
  rcases hs with hs | hs <;> subst hs <;> rcases hex with hex | hex <;>
    cases hcs : c.subscribed <;>
    simp [WebSocketConnection.switch_role, hrole, hconn, hex, hcs,
      ExchangeWebSocketPool.get_heartbeat_symbols,
      WebSocketConnection.subscribeMsgs]

/-- Closed instance of C10: a subscribed binance master demoted with no
symbols adopts `["BTCUSDT"]`. -/
theorem C10_demotion_heartbeat_default_witness :
    ((⟨"binance", "m0", "master", ["ETHUSDT"], true, true, true, 0⟩ :
        WebSocketConnection.Conn).connected = true)
    ∧ (WebSocketConnection.switch_role
        ⟨"binance", "m0", "master", ["ETHUSDT"], true, true, true, 0⟩
        "warm_standby" none).1 = true
    ∧ ((WebSocketConnection.switch_role
        ⟨"binance", "m0", "master", ["ETHUSDT"], true, true, true, 0⟩
        "warm_standby" none).2.1).symbols = ["BTCUSDT"]
    ∧ ((WebSocketConnection.switch_role
        ⟨"binance", "m0", "master", ["ETHUSDT"], true, true, true, 0⟩
        "warm_standby" none).2.1).is_active = false :=
  ⟨rfl,
    (C10_demotion_heartbeat_default _ none rfl rfl (Or.inl rfl) (Or.inl rfl)).1,
    (C10_demotion_heartbeat_default _ none rfl rfl (Or.inl rfl) (Or.inl rfl)).2.1,
    (C10_demotion_heartbeat_default _ none rfl rfl (Or.inl rfl) (Or.inl rfl)).2.2.2.1⟩
